import Mathlib

/-!
Verification development for the EEG preprocessing pipeline
(`src/preprocessing/pipeline.py`, `src/preprocessing/visualizer.py`).

The Python code is shallowly embedded below.  Pure helpers of the Python
standard library (`os.path.splitext`, `str.lower`) are translated directly.
Calls into the external `mne`/`numpy` libraries are embedded as follows:
library routines whose input/output behaviour the repository relies on only
abstractly (the FIR band-pass filter, the iterative ICA fit, the EOG scorer,
the component reconstruction) become fields of an `MneLib` record, so every
theorem quantifies over their behaviour; library routines whose concrete,
documented behaviour decides a claim (epoch segmentation with an inclusive
`tmax` endpoint, the per-epoch mean export, numpy-style clamping slices,
Python list indexing) are translated from their documented semantics.
Signal samples are embedded as rational numbers.
-/

/-- Lowercase a string character by character, as Python `str.lower` does on
the ASCII extensions compared here. -/
def strLower (s : String) : String := String.mk (s.data.map Char.toLower)

/-- Characters after the last path separator, as `os.path` basename handling. -/
def basenameChars (cs : List Char) : List Char :=
  (cs.reverse.takeWhile (fun c => c ≠ '/')).reverse

/-- Extension of a basename, as `os.path.splitext`: the suffix from the last
dot, except that a run of leading dots never starts an extension. -/
def extOfBase (cs : List Char) : List Char :=
  let lead := (cs.takeWhile (fun c => c = '.')).length
  let rest := cs.drop lead
  if rest.contains '.' then
    '.' :: ((rest.reverse.takeWhile (fun c => c ≠ '.')).reverse)
  else []

/-- `os.path.splitext(p)[1]`: the extension of the path `p`. -/
def splitextExt (p : String) : String := String.mk (extOfBase (basenameChars p.data))

/-- Floor of a rational number as an integer. -/
def ratFloorInt (q : ℚ) : ℤ := Int.fdiv q.num q.den

/-- Round-half-up of a rational number, as an integer; models the
sample-index rounding mne performs when converting times to samples. -/
def ratRoundInt (q : ℚ) : ℤ := ratFloorInt (q + 1/2)

/-- Round-half-up of a nonnegative rational number, as a natural number. -/
def ratRoundNat (q : ℚ) : ℕ := (ratRoundInt q).toNat

/-- Truncation toward zero of a nonnegative rational, as Python `int(...)`. -/
def ratTruncNat (q : ℚ) : ℕ := (ratFloorInt q).toNat

/-- A multichannel recording as mne holds it: channel names, per-channel
EOG flag (the `eog` channel type that `mne.pick_types(..., eog=True)`
selects), sampling frequency, optional measurement date, and the
channels × samples data matrix. -/
structure Series where
  chNames : List String
  chIsEog : List Bool
  sfreq : ℚ
  measDate : Option ℤ
  data : List (List ℚ)
deriving DecidableEq

/-- Number of samples of a series (length of the first channel row). -/
def nSamples (s : Series) : ℕ := (s.data.headD []).length

/-- `mne.pick_types(raw.info, eog=True)`: the indices of channels flagged
as EOG channels. -/
def eogPicks (s : Series) : List ℕ :=
  (List.range s.chIsEog.length).filter (fun i => s.chIsEog.getD i false)

/-- The external mne/scipy primitives the pipeline calls, as an abstract
interface: readers for the two supported codecs, the FIR band-pass filter
(data matrix to data matrix; `raw.filter` preserves channel metadata and
is applied to the preloaded data), the seeded iterative ICA fit producing
an abstract fitted model of type `Fit`, the EOG artifact scorer (which may
raise, hence `Except`; the score vector the Python tuple also carries is
not consumed by the pipeline and is not modelled), and the ICA
reconstruction `ica.apply` acting on a data matrix. -/
structure MneLib (Fit : Type) where
  readEdf : String → Series
  readFif : String → Series
  bandpass : ℚ → ℚ → List (List ℚ) → List (List ℚ)
  fitAlgoSeeded : ℕ → ℕ → List (List ℚ) → Fit
  findBadsEog : Fit → Series → Except String (List ℕ)
  icaApply : Fit → ℕ → List ℕ → List (List ℚ) → List (List ℚ)

/-- Running the ICA fit under mne's randomness model: with
`random_state = some s` the fit is seeded with `s` and the ambient
process RNG state is ignored; with `random_state = none` mne would fall
back to the ambient RNG state. -/
def mneFit {Fit : Type} (lib : MneLib Fit) (randomState : Option ℕ) (ambientSeed : ℕ)
    (nComp : ℕ) (data : List (List ℚ)) : Fit :=
  match randomState with
  | some s => lib.fitAlgoSeeded s nComp data
  | none => lib.fitAlgoSeeded ambientSeed nComp data

/-- The fitted ICA object as the pipeline holds it: effective component
count, the `random_state` it was constructed with, the fitted model, and
the mutable `exclude` list. -/
structure IcaState (Fit : Type) where
  nComp : ℕ
  randomState : Option ℕ
  fitted : Fit
  exclude : List ℕ
deriving DecidableEq

/-- An epoched data set as `mne.Epochs` holds it: metadata plus the list
of epochs, each a channels × samples matrix. -/
structure EpochsData where
  chNames : List String
  sfreq : ℚ
  measDate : Option ℤ
  epochs : List (List (List ℚ))
deriving DecidableEq

/-- `mne.make_fixed_length_events(s, duration=d)`: one event at every
multiple of `round(d * sfreq)` samples inside the recording. -/
def make_fixed_length_events (s : Series) (duration : ℚ) : List ℕ :=
  (List.range (nSamples s)).filter (fun k => k % ratRoundNat (duration * s.sfreq) = 0)

/-- `mne.Epochs(s, events, tmin, tmax, baseline=None, preload=True)`:
for each event sample `e` the window runs from `e + round(tmin*sfreq)` to
`e + round(tmax*sfreq)` INCLUSIVE (mne documents that the last sample is
included), so each epoch holds `round(tmax*sfreq) - round(tmin*sfreq) + 1`
samples; events whose window would leave the recording are dropped. -/
def mneEpochs (s : Series) (events : List ℕ) (tmin tmax : ℚ) : EpochsData :=
  let lo := ratRoundInt (tmin * s.sfreq)
  let hi := ratRoundInt (tmax * s.sfreq)
  let len := (hi - lo + 1).toNat
  let keep := events.filter (fun e =>
    decide (0 ≤ (e : ℤ) + lo) && decide ((e : ℤ) + hi ≤ (nSamples s : ℤ) - 1))
  { chNames := s.chNames, sfreq := s.sfreq, measDate := s.measDate,
    epochs := keep.map (fun e => s.data.map (fun row => (row.drop ((e : ℤ) + lo).toNat).take len)) }

/-- Pointwise sum of two matrices of equal shape (numpy broadcasting across
the epoch axis). -/
def matAdd (a b : List (List ℚ)) : List (List ℚ) :=
  List.zipWith (List.zipWith (fun x y => x + y)) a b

/-- Scale every entry of a matrix. -/
def matScale (c : ℚ) (a : List (List ℚ)) : List (List ℚ) :=
  a.map (List.map (fun x => c * x))

/-- `epochs.get_data().mean(axis=0)`: the sample-wise mean across all
epochs, a channels × epoch-length matrix. -/
def meanEpochs (ep : EpochsData) : List (List ℚ) :=
  match ep.epochs with
  | [] => []
  | e :: rest => matScale (1 / ((rest.length + 1 : ℕ) : ℚ)) (rest.foldl matAdd e)

/-- The error raised for an unrecognized input extension
(`raise ValueError('Unsupported file format')`). -/
inductive PErr where
  | unsupportedFormat
deriving DecidableEq

/-- The files `preprocess_eeg` writes: the structured `.fif` output (raw or
epoched variant) and the plain-text `.csv` matrix dump. -/
inductive FileWrite where
  | fifRaw : String → Series → FileWrite
  | fifEpochs : String → EpochsData → FileWrite
  | csv : String → List (List ℚ) → FileWrite
deriving DecidableEq

/-- The `cleaned` object returned by the pipeline: a continuous recording,
or epochs when epoching was requested (the Python variable holds either a
`BaseRaw` or a `BaseEpochs` and the export code branches on `isinstance`). -/
inductive CleanedObj where
  | continuous : Series → CleanedObj
  | epoched : EpochsData → CleanedObj
deriving DecidableEq

/-- The tuple `(raw, cleaned, ica, ica.exclude)` returned by `preprocess_eeg`. -/
structure PipeResult (Fit : Type) where
  raw : Series
  cleaned : CleanedObj
  ica : IcaState Fit
  excl : List ℕ
deriving DecidableEq

/-- The format dispatch of `preprocess_eeg` lines 12-16: `.edf` inputs go
through `mne.io.read_raw_edf`, `.fif` inputs through `mne.io.read_raw_fif`
(only reached when the lowercased extension is one of the two). -/
def readSeries {Fit : Type} (lib : MneLib Fit) (input_path : String) : Series :=
  if strLower (splitextExt input_path) = ".edf" then lib.readEdf input_path
  else lib.readFif input_path

/-- Line 21, `raw.filter(l_freq, h_freq, fir_design='firwin')`: mne filters
the preloaded data IN PLACE (the documented behaviour of `raw.filter` on
preloaded data), replacing the data matrix and keeping channel metadata;
after this line the variable `raw` holds the filtered signal. -/
def filteredRaw {Fit : Type} (lib : MneLib Fit) (input_path : String)
    (l_freq h_freq : ℚ) : Series :=
  let raw := readSeries lib input_path
  { raw with data := lib.bandpass l_freq h_freq raw.data }

/-- Lines 24-25: `n_ica = min(n_components, n_chan)` with
`n_chan = len(raw.ch_names)` taken after filtering. -/
def nIca {Fit : Type} (lib : MneLib Fit) (input_path : String)
    (l_freq h_freq : ℚ) (n_components : ℕ) : ℕ :=
  min n_components (filteredRaw lib input_path l_freq h_freq).chNames.length

/-- Lines 26-27: `ICA(n_components=n_ica, random_state=97, max_iter='auto')`
followed by `ica.fit(raw)` on the filtered data. -/
def fittedIca {Fit : Type} (lib : MneLib Fit) (ambientSeed : ℕ) (input_path : String)
    (l_freq h_freq : ℚ) (n_components : ℕ) : Fit :=
  mneFit lib (some 97) ambientSeed (nIca lib input_path l_freq h_freq n_components)
    (filteredRaw lib input_path l_freq h_freq).data

/-- Lines 29-37: EOG channels are picked from the (filtered) recording; if
any exist, `ica.find_bads_eog(raw)` is attempted and its indices become
`ica.exclude`, with any raised exception degrading to the empty list; with
no EOG channel the exclude list is set to `[]` without scoring. -/
def icaExclude {Fit : Type} (lib : MneLib Fit) (ambientSeed : ℕ) (input_path : String)
    (l_freq h_freq : ℚ) (n_components : ℕ) : List ℕ :=
  let raw := filteredRaw lib input_path l_freq h_freq
  if 0 < (eogPicks raw).length then
    match lib.findBadsEog (fittedIca lib ambientSeed input_path l_freq h_freq n_components) raw with
    | Except.ok inds => inds
    | Except.error _ => []
  else []

/-- Line 38, `cleaned = ica.apply(raw.copy())`: reconstruction runs on a
copy of the filtered recording, leaving the filtered data untouched. -/
def cleanedRaw {Fit : Type} (lib : MneLib Fit) (ambientSeed : ℕ) (input_path : String)
    (l_freq h_freq : ℚ) (n_components : ℕ) : Series :=
  let raw := filteredRaw lib input_path l_freq h_freq
  let applied := lib.icaApply (fittedIca lib ambientSeed input_path l_freq h_freq n_components)
    (nIca lib input_path l_freq h_freq n_components)
    (icaExclude lib ambientSeed input_path l_freq h_freq n_components) raw.data
  { raw with data := applied }

/-- The full `preprocess_eeg` of `src/preprocessing/pipeline.py`: extension
dispatch (unsupported extensions raise before anything runs and before any
file is written), in-place band-pass filter, seeded ICA fit with
`n_ica = min(n_components, n_chan)`, fail-soft EOG artifact detection,
reconstruction on a copy, optional epoching, export of the `.fif`
structured output (measurement date cleared) and of the `.csv` matrix (the
continuous matrix, or the mean across epochs when epoching), and the
returned tuple `(raw, cleaned, ica, ica.exclude)`.  The first component of
the value is the list of files written, the second the Python
return-or-raise outcome. -/
def preprocess_eeg {Fit : Type} (lib : MneLib Fit) (ambientSeed : ℕ)
    (input_path fif_out_path csv_out_path : String)
    (l_freq h_freq : ℚ) (n_components : ℕ) (epoch : Bool) (epoch_length : ℚ) :
    List FileWrite × Except PErr (PipeResult Fit) :=
  if strLower (splitextExt input_path) = ".edf" ∨ strLower (splitextExt input_path) = ".fif" then
    let raw := filteredRaw lib input_path l_freq h_freq
    let ica : IcaState Fit :=
      { nComp := nIca lib input_path l_freq h_freq n_components,
        randomState := some 97,
        fitted := fittedIca lib ambientSeed input_path l_freq h_freq n_components,
        exclude := icaExclude lib ambientSeed input_path l_freq h_freq n_components }
    let cleaned := cleanedRaw lib ambientSeed input_path l_freq h_freq n_components
    if epoch then
      let eps0 := mneEpochs cleaned (make_fixed_length_events cleaned epoch_length) 0 epoch_length
      let eps := { eps0 with measDate := none }
      ([FileWrite.fifEpochs fif_out_path eps, FileWrite.csv csv_out_path (meanEpochs eps)],
       Except.ok { raw := raw, cleaned := CleanedObj.epoched eps, ica := ica, excl := ica.exclude })
    else
      let c := { cleaned with measDate := none }
      ([FileWrite.fifRaw fif_out_path c, FileWrite.csv csv_out_path c.data],
       Except.ok { raw := raw, cleaned := CleanedObj.continuous c, ica := ica, excl := ica.exclude })
  else ([], Except.error PErr.unsupportedFormat)

/-- Numpy-style slice `raw[:nChan, :nTimes]` on an mne recording: slicing
clamps to the available channels and samples (it never raises). -/
def sliceData (s : Series) (nChan nTimes : ℕ) : List (List ℚ) :=
  (s.data.take nChan).map (fun row => row.take nTimes)

/-- `plot_raw_signal(raw, out, duration=10, n_channels=5)` of
`src/preprocessing/visualizer.py`: it slices the first `n_channels` rows and
the first `int(duration * sfreq)` samples (clamping), then loops
`for i in range(n_channels)` building one trace per `i` with the vertical
offset `i * 100` and the channel name; Python list indexing `data[i]` and
`raw.ch_names[i]` raises `IndexError` past the end, which the embedding
returns as `Except.error`.  The value is the list of (name, offset samples)
traces of the produced figure. -/
def plot_raw_signal (raw : Series) (duration : ℚ) (n_channels : ℕ) :
    Except String (List (String × List ℚ)) :=
  let data := sliceData raw n_channels (ratTruncNat (duration * raw.sfreq))
  (List.range n_channels).mapM (fun i =>
    match data.get? i with
    | some row =>
      match raw.chNames.get? i with
      | some nm => Except.ok (nm, row.map (fun x => x + (i : ℚ) * 100))
      | none => Except.error "IndexError"
    | none => Except.error "IndexError")

/-- The exclusion mask of mne's `ICA._pick_sources`: the identity on source
space with zeroes at the excluded source indices. -/
def excludeMask (n : ℕ) (exclude : List ℕ) : Matrix (Fin n) (Fin n) ℚ :=
  Matrix.diagonal (fun i => if i.val ∈ exclude then 0 else 1)

/-- mne's `ICA.apply` reconstruction on whitened source space, as
`ICA._pick_sources` assembles it: unmix the data into sources, zero the
excluded sources, remix (the square mixing matrix is the inverse of the
square unmixing matrix, both extended by the identity on the retained
residual subspace). -/
def pickSources (n t : ℕ) (mix unmix : Matrix (Fin n) (Fin n) ℚ) (exclude : List ℕ)
    (data : Matrix (Fin n) (Fin t) ℚ) : Matrix (Fin n) (Fin t) ℚ :=
  mix * excludeMask n exclude * unmix * data

/-- A four-channel recording with no EOG channel. -/
def noEogSeries : Series :=
  { chNames := ["C1", "C2", "C3", "C4"], chIsEog := [false, false, false, false],
    sfreq := 250, measDate := some 5, data := [[1, 2], [3, 4], [5, 6], [7, 8]] }

/-- A two-channel recording with one EOG channel. -/
def eogSeries : Series :=
  { chNames := ["C1", "EOG1"], chIsEog := [false, true],
    sfreq := 250, measDate := none, data := [[1, 2], [3, 4]] }

/-- A one-channel recording holding a constant (DC) signal. -/
def constSeries : Series :=
  { chNames := ["C1"], chIsEog := [false], sfreq := 4, measDate := none,
    data := [[1, 1, 1, 1]] }

/-- A one-channel, 10-second recording at 10 Hz (100 samples). -/
def epochSeries : Series :=
  { chNames := ["C1"], chIsEog := [false], sfreq := 10, measDate := none,
    data := [List.replicate 100 0] }

/-- A three-channel recording (fewer channels than the renderer's default). -/
def threeChanSeries : Series :=
  { chNames := ["C1", "C2", "C3"], chIsEog := [false, false, false],
    sfreq := 10, measDate := none,
    data := [List.replicate 20 0, List.replicate 20 0, List.replicate 20 0] }

/-- Mean of a list of samples. -/
def rowMean (row : List ℚ) : ℚ := row.foldl (fun x y => x + y) 0 / (row.length : ℚ)

/-- The action of a band-pass filter with a positive low cutoff on the DC
component: a 1-40 Hz band-pass blocks 0 Hz, so a constant signal maps to
zero; `dcRemove` subtracts each channel's mean, the simplest filter with
exactly this documented behaviour, used to instantiate the abstract filter
at a concrete input. -/
def dcRemove (d : List (List ℚ)) : List (List ℚ) :=
  d.map (fun row => row.map (fun x => x - rowMean row))

/-- Concrete library instance: reads `noEogSeries`, with identity filter and
reconstruction and a scorer that finds nothing. -/
def noEogLib : MneLib Unit :=
  { readEdf := fun _ => noEogSeries, readFif := fun _ => noEogSeries,
    bandpass := fun _ _ d => d, fitAlgoSeeded := fun _ _ _ => Unit.unit,
    findBadsEog := fun _ _ => Except.ok [], icaApply := fun _ _ _ d => d }

/-- Concrete library instance: reads `eogSeries` and its EOG scorer raises. -/
def eogErrLib : MneLib Unit :=
  { readEdf := fun _ => eogSeries, readFif := fun _ => eogSeries,
    bandpass := fun _ _ d => d, fitAlgoSeeded := fun _ _ _ => Unit.unit,
    findBadsEog := fun _ _ => Except.error "RuntimeError", icaApply := fun _ _ _ d => d }

/-- Concrete library instance: reads `constSeries` and its band-pass filter
removes the DC component. -/
def dcLib : MneLib Unit :=
  { readEdf := fun _ => constSeries, readFif := fun _ => constSeries,
    bandpass := fun _ _ d => dcRemove d, fitAlgoSeeded := fun _ _ _ => Unit.unit,
    findBadsEog := fun _ _ => Except.ok [], icaApply := fun _ _ _ d => d }

/-- Concrete library instance: reads `epochSeries`, with identity filter and
reconstruction. -/
def epochLib : MneLib Unit :=
  { readEdf := fun _ => epochSeries, readFif := fun _ => epochSeries,
    bandpass := fun _ _ d => d, fitAlgoSeeded := fun _ _ _ => Unit.unit,
    findBadsEog := fun _ _ => Except.ok [], icaApply := fun _ _ _ d => d }

/-- Row-length profile of a channels × samples matrix: the length of each
row, in order (the shape of the matrix along the sample axis). -/
def rowLens (m : List (List ℚ)) : List ℕ := m.map List.length

/-- The ICA object as returned: component count, fixed seed, fitted model
and exclude list. -/
def icaStateOf {Fit : Type} (lib : MneLib Fit) (ambientSeed : ℕ) (input_path : String)
    (l_freq h_freq : ℚ) (n_components : ℕ) : IcaState Fit :=
  { nComp := nIca lib input_path l_freq h_freq n_components,
    randomState := some 97,
    fitted := fittedIca lib ambientSeed input_path l_freq h_freq n_components,
    exclude := icaExclude lib ambientSeed input_path l_freq h_freq n_components }

/-- The continuous cleaned recording as exported: reconstruction result
with the measurement date cleared. -/
def cleanedFinal {Fit : Type} (lib : MneLib Fit) (ambientSeed : ℕ) (input_path : String)
    (l_freq h_freq : ℚ) (n_components : ℕ) : Series :=
  { cleanedRaw lib ambientSeed input_path l_freq h_freq n_components with measDate := none }

/-- The epoched cleaned data as exported: fixed-length epochs of the
reconstruction with the measurement date cleared. -/
def epochsFinal {Fit : Type} (lib : MneLib Fit) (ambientSeed : ℕ) (input_path : String)
    (l_freq h_freq : ℚ) (n_components : ℕ) (epoch_length : ℚ) : EpochsData :=
  let cleaned := cleanedRaw lib ambientSeed input_path l_freq h_freq n_components
  { mneEpochs cleaned (make_fixed_length_events cleaned epoch_length) 0 epoch_length with
      measDate := none }

set_option maxHeartbeats 2000000 in
/-- Helper: on an accepted extension with epoching disabled, the run writes
the continuous `.fif` and `.csv` exports and returns the tuple. -/
theorem preprocess_eeg_eq_continuous {Fit : Type} (lib : MneLib Fit)
    (ambientSeed : ℕ) (input_path fif_out_path csv_out_path : String)
    (l_freq h_freq : ℚ) (n_components : ℕ) (epoch_length : ℚ)
    (hext : strLower (splitextExt input_path) = ".edf" ∨ strLower (splitextExt input_path) = ".fif") :
    preprocess_eeg lib ambientSeed input_path fif_out_path csv_out_path
        l_freq h_freq n_components false epoch_length
      = ([FileWrite.fifRaw fif_out_path (cleanedFinal lib ambientSeed input_path l_freq h_freq n_components),
          FileWrite.csv csv_out_path (cleanedFinal lib ambientSeed input_path l_freq h_freq n_components).data],
         Except.ok
           { raw := filteredRaw lib input_path l_freq h_freq,
             cleaned := CleanedObj.continuous (cleanedFinal lib ambientSeed input_path l_freq h_freq n_components),
             ica := icaStateOf lib ambientSeed input_path l_freq h_freq n_components,
             excl := icaExclude lib ambientSeed input_path l_freq h_freq n_components }) := by
  rw [preprocess_eeg, if_pos hext]
  rfl

set_option maxHeartbeats 2000000 in
/-- Helper: on an accepted extension with epoching enabled, the run writes
the epoched `.fif` export and the mean-across-epochs `.csv` export and
returns the tuple. -/
theorem preprocess_eeg_eq_epoched {Fit : Type} (lib : MneLib Fit)
    (ambientSeed : ℕ) (input_path fif_out_path csv_out_path : String)
    (l_freq h_freq : ℚ) (n_components : ℕ) (epoch_length : ℚ)
    (hext : strLower (splitextExt input_path) = ".edf" ∨ strLower (splitextExt input_path) = ".fif") :
    preprocess_eeg lib ambientSeed input_path fif_out_path csv_out_path
        l_freq h_freq n_components true epoch_length
      = ([FileWrite.fifEpochs fif_out_path (epochsFinal lib ambientSeed input_path l_freq h_freq n_components epoch_length),
          FileWrite.csv csv_out_path (meanEpochs (epochsFinal lib ambientSeed input_path l_freq h_freq n_components epoch_length))],
         Except.ok
           { raw := filteredRaw lib input_path l_freq h_freq,
             cleaned := CleanedObj.epoched (epochsFinal lib ambientSeed input_path l_freq h_freq n_components epoch_length),
             ica := icaStateOf lib ambientSeed input_path l_freq h_freq n_components,
             excl := icaExclude lib ambientSeed input_path l_freq h_freq n_components }) := by
  rw [preprocess_eeg, if_pos hext]
  rfl

/-- Helper: filtering preserves the EOG channel flags, so the EOG picks of
the filtered recording are those of the recording as read. -/
theorem eogPicks_filteredRaw {Fit : Type} (lib : MneLib Fit) (input_path : String)
    (l_freq h_freq : ℚ) :
    eogPicks (filteredRaw lib input_path l_freq h_freq) = eogPicks (readSeries lib input_path) :=
  rfl

/-- Helper: with no EOG channel in the recording the exclude list is set to
`[]` in the `else` branch, whatever the scorer would do. -/
theorem icaExclude_no_eog {Fit : Type} (lib : MneLib Fit) (ambientSeed : ℕ)
    (input_path : String) (l_freq h_freq : ℚ) (n_components : ℕ)
    (heog : eogPicks (readSeries lib input_path) = []) :
    icaExclude lib ambientSeed input_path l_freq h_freq n_components = [] := by
  unfold icaExclude
  have h : eogPicks (filteredRaw lib input_path l_freq h_freq) = [] :=
    (eogPicks_filteredRaw lib input_path l_freq h_freq).trans heog
  simp [h]

/-- Claim C1: for every input path whose lowercased extension is neither
".edf" nor ".fif", `preprocess_eeg` stops with the unsupported-format error
before any filtering, decomposition or output writing, writing no file and
producing no partial result — uniformly in the behaviour of every library
primitive. -/
theorem C1_unsupported_extension_hard_stop {Fit : Type} (lib : MneLib Fit)
    (ambientSeed : ℕ) (input_path fif_out_path csv_out_path : String)
    (l_freq h_freq : ℚ) (n_components : ℕ) (epoch : Bool) (epoch_length : ℚ)
    (h1 : strLower (splitextExt input_path) ≠ ".edf")
    (h2 : strLower (splitextExt input_path) ≠ ".fif") :
    preprocess_eeg lib ambientSeed input_path fif_out_path csv_out_path
      l_freq h_freq n_components epoch epoch_length
      = ([], Except.error PErr.unsupportedFormat) := by
  unfold preprocess_eeg
  simp [h1, h2]

/-- Witness for C1 at the concrete unsupported path `data.txt`. -/
theorem C1_witness :
    (strLower (splitextExt "data.txt") ≠ ".edf" ∧ strLower (splitextExt "data.txt") ≠ ".fif") ∧
    preprocess_eeg noEogLib 0 "data.txt" "out.fif" "out.csv" 1 40 15 false 2
      = ([], Except.error PErr.unsupportedFormat) :=
  ⟨⟨by decide, by decide⟩,
   C1_unsupported_extension_hard_stop noEogLib 0 "data.txt" "out.fif" "out.csv" 1 40 15 false 2
     (by decide) (by decide)⟩

/-- Claim C2: on every accepted input the pipeline succeeds and the
effective ICA component count both stored in the returned model and passed
to the fit equals `min(requested, channel count)`, hence never exceeds the
channel count of the recording. -/
theorem C2_effective_components_min {Fit : Type} (lib : MneLib Fit)
    (ambientSeed : ℕ) (input_path fif_out_path csv_out_path : String)
    (l_freq h_freq : ℚ) (n_components : ℕ) (epoch : Bool) (epoch_length : ℚ)
    (hext : strLower (splitextExt input_path) = ".edf" ∨ strLower (splitextExt input_path) = ".fif") :
    ∃ ws r, preprocess_eeg lib ambientSeed input_path fif_out_path csv_out_path
        l_freq h_freq n_components epoch epoch_length = (ws, Except.ok r) ∧
      r.ica.nComp = min n_components (readSeries lib input_path).chNames.length ∧
      r.ica.nComp ≤ (readSeries lib input_path).chNames.length ∧
      r.ica.fitted = lib.fitAlgoSeeded 97
        (min n_components (readSeries lib input_path).chNames.length)
        (filteredRaw lib input_path l_freq h_freq).data := by
  cases epoch with
  | false =>
    rw [preprocess_eeg_eq_continuous lib ambientSeed input_path fif_out_path csv_out_path
      l_freq h_freq n_components epoch_length hext]
    exact ⟨_, _, rfl, rfl, Nat.min_le_right _ _, rfl⟩
  | true =>
    rw [preprocess_eeg_eq_epoched lib ambientSeed input_path fif_out_path csv_out_path
      l_freq h_freq n_components epoch_length hext]
    exact ⟨_, _, rfl, rfl, Nat.min_le_right _ _, rfl⟩

/-- Witness for C2: the concrete path `rec.edf` with 15 requested components
on a 4-channel recording. -/
theorem C2_witness :
    (strLower (splitextExt "rec.edf") = ".edf" ∨ strLower (splitextExt "rec.edf") = ".fif") ∧
    (∃ ws r, preprocess_eeg noEogLib 0 "rec.edf" "out.fif" "out.csv" 1 40 15 false 2
        = (ws, Except.ok r) ∧
      r.ica.nComp = min 15 (readSeries noEogLib "rec.edf").chNames.length ∧
      r.ica.nComp ≤ (readSeries noEogLib "rec.edf").chNames.length ∧
      r.ica.fitted = noEogLib.fitAlgoSeeded 97
        (min 15 (readSeries noEogLib "rec.edf").chNames.length)
        (filteredRaw noEogLib "rec.edf" 1 40).data) :=
  ⟨Or.inl (by decide),
   C2_effective_components_min noEogLib 0 "rec.edf" "out.fif" "out.csv" 1 40 15 false 2
     (Or.inl (by decide))⟩

/-- Claim C9: the pipeline is deterministic — the ICA is constructed with
the fixed seed `random_state=97`, so the whole run (filtered data, fitted
decomposition, exclude set, writes and returned tuple) is independent of
the ambient process RNG state: two runs on identical input are identical. -/
theorem C9_deterministic {Fit : Type} (lib : MneLib Fit) (seed1 seed2 : ℕ)
    (input_path fif_out_path csv_out_path : String)
    (l_freq h_freq : ℚ) (n_components : ℕ) (epoch : Bool) (epoch_length : ℚ) :
    preprocess_eeg lib seed1 input_path fif_out_path csv_out_path
        l_freq h_freq n_components epoch epoch_length
      = preprocess_eeg lib seed2 input_path fif_out_path csv_out_path
        l_freq h_freq n_components epoch epoch_length := rfl

/-- Claim C10: acceptance at the entry point depends only on the lowercased
extension — two paths with the same lowercased extension are either both
rejected with the unsupported-format error or both accepted. -/
theorem C10_case_insensitive_acceptance {Fit : Type} (lib : MneLib Fit)
    (ambientSeed : ℕ) (p q fif_out_path csv_out_path : String)
    (l_freq h_freq : ℚ) (n_components : ℕ) (epoch : Bool) (epoch_length : ℚ)
    (hsame : strLower (splitextExt p) = strLower (splitextExt q)) :
    ((preprocess_eeg lib ambientSeed p fif_out_path csv_out_path
        l_freq h_freq n_components epoch epoch_length).2 = Except.error PErr.unsupportedFormat
      ↔ (preprocess_eeg lib ambientSeed q fif_out_path csv_out_path
        l_freq h_freq n_components epoch epoch_length).2 = Except.error PErr.unsupportedFormat) := by
  unfold preprocess_eeg
  rw [hsame]
  by_cases hc : strLower (splitextExt q) = ".edf" ∨ strLower (splitextExt q) = ".fif"
  · rw [if_pos hc, if_pos hc]
    cases epoch <;> simp
  · rw [if_neg hc, if_neg hc]

/-- Witness for C10 at the concrete pair `rec.EDF` / `rec.edf`. -/
theorem C10_witness :
    (strLower (splitextExt "rec.EDF") = strLower (splitextExt "rec.edf")) ∧
    ((preprocess_eeg noEogLib 0 "rec.EDF" "out.fif" "out.csv" 1 40 15 false 2).2
        = Except.error PErr.unsupportedFormat
      ↔ (preprocess_eeg noEogLib 0 "rec.edf" "out.fif" "out.csv" 1 40 15 false 2).2
        = Except.error PErr.unsupportedFormat) :=
  ⟨by decide,
   C10_case_insensitive_acceptance noEogLib 0 "rec.EDF" "rec.edf" "out.fif" "out.csv" 1 40 15 false 2
     (by decide)⟩

/-- Helper: with at least one EOG channel and a scorer that raises, the
`except` branch degrades the exclude list to `[]`. -/
theorem icaExclude_scorer_error {Fit : Type} (lib : MneLib Fit) (ambientSeed : ℕ)
    (input_path : String) (l_freq h_freq : ℚ) (n_components : ℕ) (msg : String)
    (heog : eogPicks (readSeries lib input_path) ≠ [])
    (hfail : lib.findBadsEog (fittedIca lib ambientSeed input_path l_freq h_freq n_components)
      (filteredRaw lib input_path l_freq h_freq) = Except.error msg) :
    icaExclude lib ambientSeed input_path l_freq h_freq n_components = [] := by
  have hlen : 0 < (eogPicks (filteredRaw lib input_path l_freq h_freq)).length := by
    rw [eogPicks_filteredRaw]
    exact List.length_pos.mpr heog
  simp only [icaExclude]
  rw [if_pos hlen, hfail]

set_option maxHeartbeats 4000000 in
/-- Claim C3: with no EOG channel in the recording, the pipeline succeeds
with an empty exclude set, and no scoring computation is attempted — the
entire run is unchanged when the scoring procedure is replaced by any
other. -/
theorem C3_no_eog_empty_exclude {Fit : Type} (lib : MneLib Fit)
    (f g : Fit → Series → Except String (List ℕ)) (ambientSeed : ℕ)
    (input_path fif_out_path csv_out_path : String)
    (l_freq h_freq : ℚ) (n_components : ℕ) (epoch : Bool) (epoch_length : ℚ)
    (hext : strLower (splitextExt input_path) = ".edf" ∨ strLower (splitextExt input_path) = ".fif")
    (heog : eogPicks (readSeries lib input_path) = []) :
    (∃ ws r, preprocess_eeg { lib with findBadsEog := f } ambientSeed input_path
        fif_out_path csv_out_path l_freq h_freq n_components epoch epoch_length
        = (ws, Except.ok r) ∧ r.excl = []) ∧
    preprocess_eeg { lib with findBadsEog := f } ambientSeed input_path
        fif_out_path csv_out_path l_freq h_freq n_components epoch epoch_length
      = preprocess_eeg { lib with findBadsEog := g } ambientSeed input_path
        fif_out_path csv_out_path l_freq h_freq n_components epoch epoch_length := by
  have hf : icaExclude { lib with findBadsEog := f } ambientSeed input_path
      l_freq h_freq n_components = [] :=
    icaExclude_no_eog _ _ _ _ _ _ heog
  have hg : icaExclude { lib with findBadsEog := g } ambientSeed input_path
      l_freq h_freq n_components = [] :=
    icaExclude_no_eog _ _ _ _ _ _ heog
  have hcr : cleanedRaw { lib with findBadsEog := f } ambientSeed input_path
      l_freq h_freq n_components
      = cleanedRaw { lib with findBadsEog := g } ambientSeed input_path
        l_freq h_freq n_components := by
    simp only [cleanedRaw]
    rw [hf, hg]
    rfl
  have hcf : cleanedFinal { lib with findBadsEog := f } ambientSeed input_path
      l_freq h_freq n_components
      = cleanedFinal { lib with findBadsEog := g } ambientSeed input_path
        l_freq h_freq n_components := by
    simp only [cleanedFinal]
    rw [hcr]
  have hst : icaStateOf { lib with findBadsEog := f } ambientSeed input_path
      l_freq h_freq n_components
      = icaStateOf { lib with findBadsEog := g } ambientSeed input_path
        l_freq h_freq n_components := by
    simp only [icaStateOf]
    rw [hf, hg]
    rfl
  have hef : epochsFinal { lib with findBadsEog := f } ambientSeed input_path
      l_freq h_freq n_components epoch_length
      = epochsFinal { lib with findBadsEog := g } ambientSeed input_path
        l_freq h_freq n_components epoch_length := by
    simp only [epochsFinal]
    rw [hcr]
  cases epoch with
  | false =>
    rw [preprocess_eeg_eq_continuous _ ambientSeed input_path fif_out_path csv_out_path
        l_freq h_freq n_components epoch_length hext,
      preprocess_eeg_eq_continuous _ ambientSeed input_path fif_out_path csv_out_path
        l_freq h_freq n_components epoch_length hext]
    exact ⟨⟨_, _, rfl, hf⟩, by rw [hcf, hst, hf, hg]; rfl⟩
  | true =>
    rw [preprocess_eeg_eq_epoched _ ambientSeed input_path fif_out_path csv_out_path
        l_freq h_freq n_components epoch_length hext,
      preprocess_eeg_eq_epoched _ ambientSeed input_path fif_out_path csv_out_path
        l_freq h_freq n_components epoch_length hext]
    exact ⟨⟨_, _, rfl, hf⟩, by rw [hef, hst, hf, hg]; rfl⟩

/-- Witness for C3: the 4-channel EOG-free recording read from `rec.edf`,
with two arbitrarily different scorers. -/
theorem C3_witness :
    ((strLower (splitextExt "rec.edf") = ".edf" ∨ strLower (splitextExt "rec.edf") = ".fif") ∧
      eogPicks (readSeries noEogLib "rec.edf") = []) ∧
    ((∃ ws r, preprocess_eeg { noEogLib with findBadsEog := fun _ _ => Except.ok [0] } 0 "rec.edf"
        "out.fif" "out.csv" 1 40 15 false 2 = (ws, Except.ok r) ∧ r.excl = []) ∧
    preprocess_eeg { noEogLib with findBadsEog := fun _ _ => Except.ok [0] } 0 "rec.edf"
        "out.fif" "out.csv" 1 40 15 false 2
      = preprocess_eeg { noEogLib with findBadsEog := fun _ _ => Except.error "boom" } 0 "rec.edf"
        "out.fif" "out.csv" 1 40 15 false 2) :=
  ⟨⟨Or.inl (by decide), by decide⟩,
   C3_no_eog_empty_exclude noEogLib (fun _ _ => Except.ok [0]) (fun _ _ => Except.error "boom")
     0 "rec.edf" "out.fif" "out.csv" 1 40 15 false 2 (Or.inl (by decide)) (by decide)⟩

set_option maxHeartbeats 4000000 in
/-- Claim C4: with at least one EOG channel, if the scoring procedure
raises then the pipeline does not abort: it still succeeds, the exclude
set degrades to empty, the reconstruction runs (with the empty exclude
set), and both output files are still written. -/
theorem C4_scorer_failure_fail_soft {Fit : Type} (lib : MneLib Fit)
    (ambientSeed : ℕ) (input_path fif_out_path csv_out_path : String)
    (l_freq h_freq : ℚ) (n_components : ℕ) (epoch : Bool) (epoch_length : ℚ) (msg : String)
    (hext : strLower (splitextExt input_path) = ".edf" ∨ strLower (splitextExt input_path) = ".fif")
    (heog : eogPicks (readSeries lib input_path) ≠ [])
    (hfail : lib.findBadsEog (fittedIca lib ambientSeed input_path l_freq h_freq n_components)
      (filteredRaw lib input_path l_freq h_freq) = Except.error msg) :
    ∃ ws r, preprocess_eeg lib ambientSeed input_path fif_out_path csv_out_path
        l_freq h_freq n_components epoch epoch_length = (ws, Except.ok r) ∧
      r.excl = [] ∧ r.ica.exclude = [] ∧ ws.length = 2 ∧
      cleanedRaw lib ambientSeed input_path l_freq h_freq n_components
        = { filteredRaw lib input_path l_freq h_freq with
              data := lib.icaApply (fittedIca lib ambientSeed input_path l_freq h_freq n_components)
                (nIca lib input_path l_freq h_freq n_components) []
                (filteredRaw lib input_path l_freq h_freq).data } := by
  have hex : icaExclude lib ambientSeed input_path l_freq h_freq n_components = [] :=
    icaExclude_scorer_error lib ambientSeed input_path l_freq h_freq n_components msg heog hfail
  have hcr : cleanedRaw lib ambientSeed input_path l_freq h_freq n_components
      = { filteredRaw lib input_path l_freq h_freq with
            data := lib.icaApply (fittedIca lib ambientSeed input_path l_freq h_freq n_components)
              (nIca lib input_path l_freq h_freq n_components) []
              (filteredRaw lib input_path l_freq h_freq).data } := by
    simp only [cleanedRaw]
    rw [hex]
  cases epoch with
  | false =>
    rw [preprocess_eeg_eq_continuous lib ambientSeed input_path fif_out_path csv_out_path
      l_freq h_freq n_components epoch_length hext]
    exact ⟨_, _, rfl, hex, hex, rfl, hcr⟩
  | true =>
    rw [preprocess_eeg_eq_epoched lib ambientSeed input_path fif_out_path csv_out_path
      l_freq h_freq n_components epoch_length hext]
    exact ⟨_, _, rfl, hex, hex, rfl, hcr⟩

/-- Witness for C4: the recording with one EOG channel read from `rec.fif`,
with the scorer that raises. -/
theorem C4_witness :
    ((strLower (splitextExt "rec.fif") = ".edf" ∨ strLower (splitextExt "rec.fif") = ".fif") ∧
      eogPicks (readSeries eogErrLib "rec.fif") ≠ [] ∧
      eogErrLib.findBadsEog (fittedIca eogErrLib 0 "rec.fif" 1 40 15)
        (filteredRaw eogErrLib "rec.fif" 1 40) = Except.error "RuntimeError") ∧
    (∃ ws r, preprocess_eeg eogErrLib 0 "rec.fif" "out.fif" "out.csv" 1 40 15 false 2
        = (ws, Except.ok r) ∧
      r.excl = [] ∧ r.ica.exclude = [] ∧ ws.length = 2 ∧
      cleanedRaw eogErrLib 0 "rec.fif" 1 40 15
        = { filteredRaw eogErrLib "rec.fif" 1 40 with
              data := eogErrLib.icaApply (fittedIca eogErrLib 0 "rec.fif" 1 40 15)
                (nIca eogErrLib "rec.fif" 1 40 15) []
                (filteredRaw eogErrLib "rec.fif" 1 40).data }) :=
  ⟨⟨Or.inr (by decide), by decide, rfl⟩,
   C4_scorer_failure_fail_soft eogErrLib 0 "rec.fif" "out.fif" "out.csv" 1 40 15 false 2
     "RuntimeError" (Or.inr (by decide)) (by decide) rfl⟩

/-- Claim C5 counterexample: the run on a constant one-channel recording,
with the band-pass filter acting as documented on the DC component
(`dcLib`): the pipeline succeeds, but the first element of the returned
tuple no longer holds the unfiltered signal — `raw.filter` filtered it in
place, so the claim as stated is false. -/
theorem C5_counterexample :
    ∃ ws r, preprocess_eeg dcLib 0 "rec.edf" "out.fif" "out.csv" 1 40 15 false 2
        = (ws, Except.ok r) ∧
      r.raw.data ≠ (readSeries dcLib "rec.edf").data := by
  refine ⟨_, _, preprocess_eeg_eq_continuous dcLib 0 "rec.edf" "out.fif" "out.csv"
    1 40 15 2 (Or.inl (by decide)), ?_⟩
  with_unfolding_all decide

/-- Claim C5 amended: the filter stage runs in place, so the first element
of the returned tuple is the FILTERED series (the unfiltered signal is not
retained anywhere in the result); the reconstruction then runs on a copy,
leaving that filtered series otherwise untouched. -/
theorem C5_amended_filter_in_place {Fit : Type} (lib : MneLib Fit)
    (ambientSeed : ℕ) (input_path fif_out_path csv_out_path : String)
    (l_freq h_freq : ℚ) (n_components : ℕ) (epoch : Bool) (epoch_length : ℚ)
    (hext : strLower (splitextExt input_path) = ".edf" ∨ strLower (splitextExt input_path) = ".fif") :
    ∃ ws r, preprocess_eeg lib ambientSeed input_path fif_out_path csv_out_path
        l_freq h_freq n_components epoch epoch_length = (ws, Except.ok r) ∧
      r.raw = filteredRaw lib input_path l_freq h_freq ∧
      r.raw.data = lib.bandpass l_freq h_freq (readSeries lib input_path).data := by
  cases epoch with
  | false =>
    rw [preprocess_eeg_eq_continuous lib ambientSeed input_path fif_out_path csv_out_path
      l_freq h_freq n_components epoch_length hext]
    exact ⟨_, _, rfl, rfl, rfl⟩
  | true =>
    rw [preprocess_eeg_eq_epoched lib ambientSeed input_path fif_out_path csv_out_path
      l_freq h_freq n_components epoch_length hext]
    exact ⟨_, _, rfl, rfl, rfl⟩

/-- Witness for the amended C5 at the concrete DC-removal run. -/
theorem C5_amended_witness :
    (strLower (splitextExt "rec.edf") = ".edf" ∨ strLower (splitextExt "rec.edf") = ".fif") ∧
    (∃ ws r, preprocess_eeg dcLib 0 "rec.edf" "out.fif" "out.csv" 1 40 15 false 2
        = (ws, Except.ok r) ∧
      r.raw = filteredRaw dcLib "rec.edf" 1 40 ∧
      r.raw.data = dcLib.bandpass 1 40 (readSeries dcLib "rec.edf").data) :=
  ⟨Or.inl (by decide),
   C5_amended_filter_in_place dcLib 0 "rec.edf" "out.fif" "out.csv" 1 40 15 false 2
     (Or.inl (by decide))⟩

/-- Claim C6: reconstructing through the ICA model with an empty exclude
set is the identity on the data — unmixing, masking nothing and remixing
with the mixing matrix inverse to the unmixing matrix gives the input
back exactly (so in particular within any floating-point tolerance). -/
theorem C6_empty_exclude_roundtrip (n t : ℕ) (mix unmix : Matrix (Fin n) (Fin n) ℚ)
    (data : Matrix (Fin n) (Fin t) ℚ) (hinv : mix * unmix = 1) :
    pickSources n t mix unmix [] data = data := by
  have hmask : excludeMask n [] = 1 := by
    simp [excludeMask]
  rw [pickSources, hmask, Matrix.mul_one, hinv, Matrix.one_mul]

/-- Witness for C6 with the identity one-component model on one sample. -/
theorem C6_witness :
    ((1 : Matrix (Fin 1) (Fin 1) ℚ) * 1 = 1) ∧
    pickSources 1 1 1 1 [] 1 = 1 :=
  ⟨Matrix.mul_one 1, C6_empty_exclude_roundtrip 1 1 1 1 1 (Matrix.mul_one 1)⟩

/-- Claim C8 is violated by the code: on a three-channel recording the
raw-signal renderer still loops `for i in range(5)`, indexes `data[3]` of a
three-row sliced matrix and raises IndexError, instead of plotting the
three available channels. -/
theorem C8_three_channel_index_failure :
    plot_raw_signal threeChanSeries 10 5 = Except.error "IndexError" := by
  with_unfolding_all rfl

/-- Helper: pointwise addition of matrices takes row lengths to their
pointwise minima. -/
theorem rowLens_matAdd (a b : List (List ℚ)) :
    rowLens (matAdd a b) = List.zipWith min (rowLens a) (rowLens b) := by
  induction a generalizing b with
  | nil => cases b <;> rfl
  | cons x xs ih =>
    cases b with
    | nil => rfl
    | cons y ys =>
      simp only [matAdd, rowLens, List.zipWith_cons_cons, List.map_cons, List.length_zipWith]
      exact congrArg (List.cons (min x.length y.length)) (ih ys)

/-- Helper: the pointwise minimum of a list with itself. -/
theorem zipWith_min_self (S : List ℕ) : List.zipWith min S S = S := by
  induction S with
  | nil => rfl
  | cons x xs ih => simp [List.zipWith, Nat.min_self, ih]

/-- Helper: adding two matrices of one row-length profile keeps it. -/
theorem rowLens_matAdd_same {S : List ℕ} {a b : List (List ℚ)}
    (ha : rowLens a = S) (hb : rowLens b = S) : rowLens (matAdd a b) = S := by
  rw [rowLens_matAdd, ha, hb, zipWith_min_self]

/-- Helper: folding matrix addition over matrices of one row-length
profile keeps it. -/
theorem rowLens_foldl_matAdd {S : List ℕ} (l : List (List (List ℚ))) (acc : List (List ℚ))
    (hl : ∀ m ∈ l, rowLens m = S) (hacc : rowLens acc = S) :
    rowLens (l.foldl matAdd acc) = S := by
  induction l generalizing acc with
  | nil => exact hacc
  | cons x xs ih =>
    exact ih (matAdd acc x) (fun m hm => hl m (List.mem_cons_of_mem _ hm))
      (rowLens_matAdd_same hacc (hl x (List.mem_cons_self _ _)))

/-- Helper: scaling a matrix keeps its row-length profile. -/
theorem rowLens_matScale (c : ℚ) (a : List (List ℚ)) :
    rowLens (matScale c a) = rowLens a := by
  simp [rowLens, matScale, List.map_map, Function.comp]

/-- Helper: the mean across a nonempty family of matrices of one
row-length profile has that profile. -/
theorem rowLens_meanEpochs (S : List ℕ) (ep : EpochsData)
    (e : List (List ℚ)) (rest : List (List (List ℚ)))
    (hep : ep.epochs = e :: rest)
    (hl : ∀ m ∈ ep.epochs, rowLens m = S) : rowLens (meanEpochs ep) = S := by
  have h1 : meanEpochs ep
      = matScale (1 / ((rest.length + 1 : ℕ) : ℚ)) (rest.foldl matAdd e) := by
    rw [meanEpochs, hep]
  rw [h1, rowLens_matScale]
  exact rowLens_foldl_matAdd rest e
    (fun m hm => hl m (hep ▸ List.mem_cons_of_mem _ hm))
    (hl e (hep ▸ List.mem_cons_self _ _))

/-- Helper: every epoch produced by the segmentation on a rectangular
recording has `channel count` rows of `round(tmax·sf) - round(tmin·sf) + 1`
samples each — retained events leave the whole inclusive window inside the
recording. -/
theorem mneEpochs_rowLens (s : Series) (events : List ℕ) (tmin tmax : ℚ)
    (hrect : ∀ row ∈ s.data, row.length = nSamples s) :
    ∀ m ∈ (mneEpochs s events tmin tmax).epochs,
      rowLens m = List.replicate s.data.length
        ((ratRoundInt (tmax * s.sfreq) - ratRoundInt (tmin * s.sfreq) + 1).toNat) := by
  intro m hm
  simp only [mneEpochs, List.mem_map, List.mem_filter] at hm
  obtain ⟨e, ⟨he, hcond⟩, rfl⟩ := hm
  rw [Bool.and_eq_true, decide_eq_true_iff, decide_eq_true_iff] at hcond
  obtain ⟨h1, h2⟩ := hcond
  rw [rowLens, List.map_map]
  refine List.eq_replicate_iff.mpr ⟨by rw [List.length_map], ?_⟩
  intro b hb
  rw [List.mem_map] at hb
  obtain ⟨row, hrow, rfl⟩ := hb
  have hlen : row.length = nSamples s := hrect row hrow
  simp only [Function.comp_apply, List.length_take, List.length_drop, hlen]
  omega

/-- Helper: the rounding of zero time to samples. -/
theorem ratRoundInt_zero_mul (q : ℚ) : ratRoundInt (0 * q) = 0 := by
  rw [zero_mul]
  with_unfolding_all decide

/-- Claim C7 counterexample: epoching a 10 s, 10 Hz, one-channel recording
with 2.0 s windows writes a text export whose rows hold 21 samples, while
the claimed shape `channels × (L × sample_rate)` would be 20 samples — the
inclusive `tmax` endpoint of the segmentation adds one sample per window,
so the claim as stated is false. -/
theorem C7_counterexample :
    ((preprocess_eeg epochLib 0 "rec.edf" "out.fif" "out.csv" 1 40 15 true 2).1.map
      (fun w => match w with
        | FileWrite.csv _ m => some (m.map List.length)
        | _ => none)) = [none, some [21]] ∧
    ratRoundNat ((2 : ℚ) * (10 : ℚ)) = 20 ∧ (21 : ℕ) ≠ 20 := by
  refine ⟨?_, ?_, by decide⟩
  · with_unfolding_all decide
  · with_unfolding_all decide

set_option maxHeartbeats 4000000 in
/-- Claim C7 amended: with epoching enabled the text export is the
sample-wise mean across all retained windows (not the full continuous
matrix), and its shape is channels × (round(L · sample_rate) + 1): each
window carries one extra sample because the segmentation's end time is
inclusive, and trailing windows that would cross the end of the recording
are dropped. -/
theorem C7_epoch_mean_export {Fit : Type} (lib : MneLib Fit)
    (ambientSeed : ℕ) (input_path fif_out_path csv_out_path : String)
    (l_freq h_freq : ℚ) (n_components : ℕ) (epoch_length : ℚ)
    (hext : strLower (splitextExt input_path) = ".edf" ∨ strLower (splitextExt input_path) = ".fif")
    (hrect : ∀ row ∈ (cleanedRaw lib ambientSeed input_path l_freq h_freq n_components).data,
      row.length = nSamples (cleanedRaw lib ambientSeed input_path l_freq h_freq n_components))
    (e : List (List ℚ)) (rest : List (List (List ℚ)))
    (hne : (epochsFinal lib ambientSeed input_path l_freq h_freq n_components epoch_length).epochs
      = e :: rest) :
    ∃ r, preprocess_eeg lib ambientSeed input_path fif_out_path csv_out_path
        l_freq h_freq n_components true epoch_length
      = ([FileWrite.fifEpochs fif_out_path
            (epochsFinal lib ambientSeed input_path l_freq h_freq n_components epoch_length),
          FileWrite.csv csv_out_path
            (meanEpochs (epochsFinal lib ambientSeed input_path l_freq h_freq n_components epoch_length))],
         Except.ok r) ∧
      rowLens (meanEpochs (epochsFinal lib ambientSeed input_path l_freq h_freq n_components epoch_length))
        = List.replicate (cleanedRaw lib ambientSeed input_path l_freq h_freq n_components).data.length
            ((ratRoundInt (epoch_length
               * (cleanedRaw lib ambientSeed input_path l_freq h_freq n_components).sfreq) + 1).toNat) := by
  have hshape : ∀ m ∈ (epochsFinal lib ambientSeed input_path l_freq h_freq n_components epoch_length).epochs,
      rowLens m = List.replicate (cleanedRaw lib ambientSeed input_path l_freq h_freq n_components).data.length
        ((ratRoundInt (epoch_length
           * (cleanedRaw lib ambientSeed input_path l_freq h_freq n_components).sfreq) + 1).toNat) := by
    intro m hm
    have hm2 : m ∈ (mneEpochs (cleanedRaw lib ambientSeed input_path l_freq h_freq n_components)
        (make_fixed_length_events (cleanedRaw lib ambientSeed input_path l_freq h_freq n_components)
          epoch_length) 0 epoch_length).epochs := hm
    have h3 := mneEpochs_rowLens (cleanedRaw lib ambientSeed input_path l_freq h_freq n_components)
      (make_fixed_length_events (cleanedRaw lib ambientSeed input_path l_freq h_freq n_components)
        epoch_length) 0 epoch_length hrect m hm2
    rw [ratRoundInt_zero_mul, sub_zero] at h3
    exact h3
  refine ⟨_, preprocess_eeg_eq_epoched lib ambientSeed input_path fif_out_path csv_out_path
    l_freq h_freq n_components epoch_length hext, ?_⟩
  exact rowLens_meanEpochs _ _ e rest hne hshape

/-- Witness for the amended C7 at the concrete epoching run: four retained
2 s windows of 21 samples each on a 10 s, 10 Hz recording. -/
theorem C7_witness :
    ((strLower (splitextExt "rec.edf") = ".edf" ∨ strLower (splitextExt "rec.edf") = ".fif") ∧
      (∀ row ∈ (cleanedRaw epochLib 0 "rec.edf" 1 40 15).data,
        row.length = nSamples (cleanedRaw epochLib 0 "rec.edf" 1 40 15)) ∧
      (epochsFinal epochLib 0 "rec.edf" 1 40 15 2).epochs
        = [List.replicate 21 (0 : ℚ)]
          :: [[List.replicate 21 (0 : ℚ)], [List.replicate 21 (0 : ℚ)], [List.replicate 21 (0 : ℚ)]]) ∧
    (∃ r, preprocess_eeg epochLib 0 "rec.edf" "out.fif" "out.csv" 1 40 15 true 2
        = ([FileWrite.fifEpochs "out.fif" (epochsFinal epochLib 0 "rec.edf" 1 40 15 2),
            FileWrite.csv "out.csv" (meanEpochs (epochsFinal epochLib 0 "rec.edf" 1 40 15 2))],
           Except.ok r) ∧
      rowLens (meanEpochs (epochsFinal epochLib 0 "rec.edf" 1 40 15 2))
        = List.replicate (cleanedRaw epochLib 0 "rec.edf" 1 40 15).data.length
            ((ratRoundInt ((2 : ℚ) * (cleanedRaw epochLib 0 "rec.edf" 1 40 15).sfreq) + 1).toNat)) :=
  ⟨⟨Or.inl (by decide), by with_unfolding_all decide, by with_unfolding_all decide⟩,
   C7_epoch_mean_export epochLib 0 "rec.edf" "out.fif" "out.csv" 1 40 15 2
     (Or.inl (by decide)) (by with_unfolding_all decide)
     [List.replicate 21 (0 : ℚ)]
     [[List.replicate 21 (0 : ℚ)], [List.replicate 21 (0 : ℚ)], [List.replicate 21 (0 : ℚ)]]
     (by with_unfolding_all decide)⟩
